import Mathlib

/-!
Verification of the payment workflow orchestrator in
src/app/controllers/payments.js.

The controller is embedded shallowly: the dependency-ordered async.auto
graphs of the card workflow (post), the wallet-provider initiation
(paypalDonation) and its callback (paypalCallback) become Lean functions
that thread an explicit storage-plus-provider state. Provider and storage
calls are network operations whose outcomes are supplied by environment
records (one field per call site), so a theorem quantified over the
environment covers every combination of provider successes and failures.
The graphs in the source are chains (the only two parallel steps both
hang behind the createDonation step), so sequential execution in
dependency order is a faithful linearisation.

Collaborators that live outside the given sources (utils.planId,
transactions._create, users._create, the roles constant) are modelled
from the spec and marked as such in their doc comments.
-/

deriving instance DecidableEq for Except

/-- Leading-segment test on character lists: the first list read in full
at the head of the second. -/
def leadingMatch : List Char → List Char → Bool
  | [], _ => true
  | _ :: _, [] => false
  | a :: as, b :: bs => a == b && leadingMatch as bs

/-- Occurrence of a character-list pattern anywhere inside a list. -/
def charsContain (pat : List Char) : List Char → Bool
  | [] => leadingMatch pat []
  | c :: cs => leadingMatch pat (c :: cs) || charsContain pat cs

/-- JS lodash substring containment, used for `contains(accessToken, live)`
and `contains(message, No such plan)`: true when the pattern occurs inside
the string. -/
def strContains (s pat : String) : Bool :=
  charsContain pat.data s.data

/-- JS `a || b` on an optional string, where both undefined and the empty
string are falsy. -/
def jsOr (a : Option String) (b : String) : String :=
  match a with
  | none => b
  | some s => if s == "" then b else s

/-- JS truthiness of an optional string value: undefined and "" are falsy. -/
def optStrTruthy : Option String → Bool
  | none => false
  | some s => s != ""

/-- JS `!payment.amount`: true for an absent amount and for 0, false for
every other number, including negative ones. -/
def amountFalsy (a : Option Int) : Bool :=
  a.getD 0 == 0

/-- JS `contains(f[month, year], interval)` from both workflow entry points. -/
def intervalIsSub : Option String → Bool
  | none => false
  | some s => s == "month" || s == "year"

/-- Pointwise update of the element at an index, leaving the list unchanged
when the index is out of range; models an UPDATE of one storage row. -/
def updateAt (i : Nat) (f : α → α) : List α → List α
  | [] => []
  | x :: xs =>
    match i with
    | 0 => f x :: xs
    | n + 1 => x :: updateAt n f xs

/-- Errors surfaced to an async callback: BadRequest validation errors,
typed provider errors from the card provider, generic provider errors,
and storage errors. -/
inductive Err where
  | badRequest : String → Err
  | stripeErr : String → String → Err
  | provider : String → Err
  | storage : String → Err
deriving DecidableEq, Repr

/-- Provider-side billing plan as sent to and returned by the card
provider (id, interval, amount in minor units, name, currency). -/
structure Plan where
  id : String
  interval : String
  amount : Int
  name : String
  currency : String
deriving DecidableEq, Repr

/-- Outcomes of the two provider calls getOrCreatePlan can make: the
retrieval result (a plan, or an error carrying the provider type and
message strings) and the error, if any, of a subsequent create. -/
structure PlanEnv where
  retrieveRes : Except (String × String) Plan
  createErr : Option (String × String)
deriving DecidableEq, Repr

/-- Charge-like provider response: a one-time charge has a top-level
currency, a subscription response instead carries its plan currency;
application_fee is optionally reported by the provider. -/
structure Charge where
  id : String
  currency : Option String
  planCurrency : Option String
  applicationFee : Option Int
deriving DecidableEq, Repr

/-- JS `charge.currency || charge.plan.currency` from createDonation and
createTransaction. -/
def chargeCurrency (c : Charge) : Option String :=
  match c.currency with
  | some s => if s == "" then c.planCurrency else some s
  | none => c.planCurrency

/-- Request body field `payment` as read by both workflow entry points. -/
structure Payment where
  stripeToken : Option String
  amount : Option Int
  currency : Option String
  interval : Option String
  email : String
deriving DecidableEq, Repr

/-- Collective (called group in the source; the bare name Group is taken
by the algebraic structure) receiving the donation. -/
structure GroupRow where
  id : Int
  name : String
  currency : String
deriving DecidableEq, Repr

/-- User row: identified by email, with a numeric id. -/
structure UserRow where
  id : Int
  email : String
deriving DecidableEq, Repr

/-- PaymentMethod row persisted by createPaymentMethod: provider token,
provider-side customer id (serviceId), provider name, owning user. -/
structure PaymentMethodRow where
  token : String
  serviceId : String
  service : String
  UserId : Option Int
deriving DecidableEq, Repr

/-- Donation row persisted by createDonation, with the embedded
subscription descriptor fields that are attached on the recurring path. -/
structure DonationRow where
  UserId : Int
  CollectiveId : Int
  currency : Option String
  amount : Int
  title : String
  subAmount : Option Int
  subCurrency : Option String
  subInterval : Option String
  subStripeId : Option String
deriving DecidableEq, Repr

/-- Transaction row. The card path fills amountInteger (minor units), the
wallet path fills amount (the request number as given); deleted models the
paranoid-mode deletedAt marker that makes the row invisible to normal
queries. -/
structure TransactionRow where
  ttype : String
  amount : Option Int
  amountInteger : Option Int
  currency : Option String
  interval : Option String
  platformFee : Option Int
  approved : Bool
  deleted : Bool
  SubscriptionId : Option Nat
  UserId : Option Int
  description : String
deriving DecidableEq, Repr

/-- Subscription row created alongside a wallet-provider transaction and
activated by the callback. -/
structure SubscriptionRow where
  amount : Int
  currency : String
  interval : String
  isActive : Bool
  activated : Bool
  hasAgreementData : Bool
deriving DecidableEq, Repr

/-- UserGroup membership row (role BACKER for donors). -/
structure UserGroupRow where
  GroupId : Int
  UserId : Int
  role : String
deriving DecidableEq, Repr

/-- Combined storage and provider-side state threaded through a workflow
run: the local tables, plus observable provider effects (customers
created, charge calls with the customer reference each used, subscription
calls, plan specs sent to the card provider, wallet plans created). -/
structure St where
  paymentMethods : List PaymentMethodRow
  donations : List DonationRow
  transactions : List TransactionRow
  subscriptions : List SubscriptionRow
  users : List UserRow
  userGroups : List UserGroupRow
  stripeCustomersCreated : Nat
  stripeChargeCalls : List String
  stripeSubCalls : Nat
  stripePlanSpecs : List Plan
  paypalPlansCreated : Nat
deriving DecidableEq, Repr

/-- Empty initial state. -/
def stEmpty : St :=
  { paymentMethods := [], donations := [], transactions := [], subscriptions := []
    users := [], userGroups := [], stripeCustomersCreated := 0, stripeChargeCalls := []
    stripeSubCalls := 0, stripePlanSpecs := [], paypalPlansCreated := 0 }

/-- getOrCreatePlan (source lines 29 to 43): retrieve the plan by id; when
the provider reports a StripeInvalidRequest error whose message contains
No such plan, create the plan instead; any other outcome (an existing
plan, or any other error) is passed to the callback unchanged. The
returned flag records whether the create call was made. On a successful
create the provider echoes the submitted plan. -/
def getOrCreatePlan (plan : Plan) (env : PlanEnv) : Except (String × String) Plan × Bool :=
  match env.retrieveRes with
  | .ok result => (.ok result, false)
  | .error tm =>
    if tm.fst == "StripeInvalidRequest" && strContains tm.snd "No such plan" then
      (match env.createErr with
       | some e => .error e
       | none => .ok plan, true)
    else (.error tm, false)

/-- Environment for one run of the card workflow: one field per provider
or storage call site, giving that call's outcome. -/
structure CardEnv where
  accountErr : Option Err
  accessToken : Option String
  nodeEnvProduction : Bool
  findPMErr : Option Err
  customerRes : Except Err String
  pmCreateErr : Option Err
  planEnv : PlanEnv
  subRes : Except Err Charge
  chargeErr : Option Err
  chargeId : String
  chargeFee : Option Int
  donationCreateOk : Bool
deriving DecidableEq, Repr

/-- Observable outcome of the card workflow entry point: rejected by a
pre-graph validation (next is called before async.auto starts), completion
callback invoked with a step failure, completion callback invoked with the
success results, or never invoked at all. -/
inductive PostOutcome where
  | rejected : Err → PostOutcome
  | failure : Err → PostOutcome
  | success : PostOutcome
  | hang : PostOutcome
deriving DecidableEq, Repr

/-- getGroupStripeAccount step (source lines 84 to 97): resolve the
collective host account; fail when there is none or it has no access
token, and reject a live key outside production. -/
def getGroupStripeAccount (env : CardEnv) (group : GroupRow) : Except Err String :=
  match env.accountErr with
  | some e => .error e
  | none =>
    match env.accessToken with
    | none =>
      .error (Err.badRequest
        ("The host for the collective id " ++ toString group.id ++ " has no Stripe account set up"))
    | some accessToken =>
      if !env.nodeEnvProduction && strContains accessToken "live" then
        .error (Err.badRequest "You cannot use a Stripe live key on this environment")
      else .ok accessToken

/-- Modelled from the spec: utils.planId lives in src/app/lib/utils.js,
which is not among the given sources; the spec requires a stable
deterministic string derived from currency, interval and amount in minor
units. -/
def planId (currency interval : String) (amount : Int) : String :=
  interval ++ "-" ++ toString amount ++ "-" ++ currency

/-- createCharge step (source lines 147 to 207). Subscription path: derive
the deterministic plan identity from (currency, interval, minor-unit
amount), resolve the plan through getOrCreatePlan, then create the
provider subscription. One-time path: create a charge against the
payment method's provider customer; the provider echoes the requested
currency (payment currency, defaulting to the collective currency). The
state records each provider call that was made. -/
def createChargeStep (p : Payment) (group : GroupRow) (env : CardEnv)
    (pm : PaymentMethodRow) (st : St) : St × Except Err Charge :=
  let amount := p.amount.getD 0 * 100
  let currency := jsOr p.currency group.currency
  if intervalIsSub p.interval then
    let id := planId currency (p.interval.getD "") amount
    let planSpec : Plan :=
      { id := id, interval := p.interval.getD "", amount := amount, name := id, currency := currency }
    match getOrCreatePlan planSpec env.planEnv with
    | (.error tm, _) => (st, .error (Err.stripeErr tm.fst tm.snd))
    | (.ok _plan, created) =>
      let st1 := if created then { st with stripePlanSpecs := st.stripePlanSpecs ++ [planSpec] } else st
      match env.subRes with
      | .error e => (st1, .error e)
      | .ok sub => ({ st1 with stripeSubCalls := st1.stripeSubCalls + 1 }, .ok sub)
  else
    match env.chargeErr with
    | some e => (st, .error e)
    | none =>
      let st1 := { st with stripeChargeCalls := st.stripeChargeCalls ++ [pm.serviceId] }
      (st1, .ok { id := env.chargeId, currency := some currency, planCurrency := none,
                  applicationFee := env.chargeFee })

/-- createDonation step (source lines 210 to 234): build the donation row
(amount in minor units, currency read from the charge, subscription
descriptor attached on the recurring path) and call
models.Donation.create. The source never invokes the async.auto callback
cb in this task, so no step that depends on createDonation ever starts;
this function therefore only performs the storage write. -/
def createDonationStep (p : Payment) (user : UserRow) (group : GroupRow)
    (charge : Charge) (donationOk : Bool) (st : St) : St :=
  let currency := chargeCurrency charge
  let isSub := intervalIsSub p.interval
  let row : DonationRow :=
    { UserId := user.id, CollectiveId := group.id, currency := currency
      amount := p.amount.getD 0 * 100
      title := "Donation to " ++ group.name
      subAmount := if isSub then some (p.amount.getD 0) else none
      subCurrency := if isSub then currency else none
      subInterval := if isSub then p.interval else none
      subStripeId := if isSub then some charge.id else none }
  if donationOk then { st with donations := st.donations ++ [row] } else st

/-- Tail of the card workflow once a payment method is in hand:
createCharge, then createDonation. A createCharge failure reaches the
completion callback; after a successful charge the createDonation task
runs its storage write and never calls back, so the graph hangs and the
dependent createTransaction, sendThankYouEmail and addUserToGroup tasks
never start. -/
def postAfterPaymentMethod (p : Payment) (user : UserRow) (group : GroupRow)
    (env : CardEnv) (pm : PaymentMethodRow) (st : St) : St × PostOutcome :=
  match createChargeStep p group env pm st with
  | (st1, .error e) => (st1, .failure e)
  | (st1, .ok charge) =>
    (createDonationStep p user group charge env.donationCreateOk st1, PostOutcome.hang)

/-- post, the card workflow entry point (source lines 61 to 316):
pre-graph validations, then the async.auto graph getGroupStripeAccount,
getExistingPaymentMethod, createCustomer (skipped when an existing
payment method was found), createPaymentMethod (reuses the existing row
when found), createCharge, createDonation. -/
def post (p : Payment) (user : UserRow) (group : GroupRow) (env : CardEnv)
    (st : St) : St × PostOutcome :=
  if optStrTruthy p.interval && !intervalIsSub p.interval then
    (st, .rejected (Err.badRequest "Interval should be month or year."))
  else if !optStrTruthy p.stripeToken then
    (st, .rejected (Err.badRequest "Stripe Token missing."))
  else if amountFalsy p.amount then
    (st, .rejected (Err.badRequest "Payment Amount missing."))
  else
    match getGroupStripeAccount env group with
    | .error e => (st, .failure e)
    | .ok _stripe =>
      match env.findPMErr with
      | some e => (st, .failure e)
      | none =>
        match st.paymentMethods.find? (fun q =>
            q.token == p.stripeToken.getD "" && q.service == "stripe") with
        | some existing => postAfterPaymentMethod p user group env existing st
        | none =>
          match env.customerRes with
          | .error e => (st, .failure e)
          | .ok customerId =>
            let st1 := { st with stripeCustomersCreated := st.stripeCustomersCreated + 1 }
            match env.pmCreateErr with
            | some e => (st1, .failure e)
            | none =>
              let pm : PaymentMethodRow :=
                { token := p.stripeToken.getD "", serviceId := customerId
                  service := "stripe", UserId := some user.id }
              let st2 := { st1 with paymentMethods := st1.paymentMethods ++ [pm] }
              postAfterPaymentMethod p user group env pm st2

/-- Ways the sendThankYouEmail task can end: calling its callback with no
error, calling it with an error, or throwing synchronously (the thrown
exception is neither caught by async.auto nor passed to the callback). -/
inductive StepResult where
  | callbackOk : StepResult
  | callbackErr : Err → StepResult
  | thrown : String → StepResult
deriving DecidableEq, Repr

/-- sendThankYouEmail step (source lines 266 to 283): its first statement
builds the email data object by reading the identifier donation, which is
bound nowhere in the enclosing scopes, so execution throws a
ReferenceError before the template is selected or the email is sent. Had
the identifier been bound, the task body has no error path at all: it
fires the email send and calls cb with no argument. -/
def sendThankYouEmailStep (scope : List String) : StepResult :=
  if scope.contains "donation" then .callbackOk
  else .thrown "ReferenceError: donation is not defined"

/-- Identifiers visible inside the sendThankYouEmail task body: the module
scope of payments.js, the controller closure, the parameters and vars of
post, and the task's own parameters. The identifier donation is not among
them. -/
def cardWorkflowScope : List String :=
  ["utils", "roles", "_", "config", "async", "Stripe", "paypal", "OC_FEE_PERCENT",
   "app", "models", "errors", "transactions", "users", "emailLib", "constants",
   "getOrCreatePlan", "getOrCreateUser", "post", "paypalDonation", "paypalCallback",
   "req", "res", "next", "payment", "user", "email", "group", "interval",
   "isSubscription", "hasFullAccount", "cb"]

/-- addUserToGroup step, written out identically in the card workflow
(source lines 285 to 304) and in the wallet callback (source lines 511 to
531): look up an existing (group, user, BACKER) membership row; only when
none exists call addUserWithRole, whose storage outcome is addErr. The
BACKER role string is modelled from the spec (the roles constant file is
not among the given sources). -/
def addUserToGroupStep (groupId userId : Int) (addErr : Option Err) (st : St) :
    St × Option Err :=
  match st.userGroups.find? (fun ug =>
      ug.GroupId == groupId && ug.UserId == userId && ug.role == "BACKER") with
  | some _ => (st, none)
  | none =>
    match addErr with
    | some e => (st, some e)
    | none => ({ st with userGroups := st.userGroups ++ [⟨groupId, userId, "BACKER"⟩] }, none)

/-- Number of BACKER membership rows for one (group, user) pair. -/
def countBacker (st : St) (groupId userId : Int) : Nat :=
  (st.userGroups.filter (fun ug =>
      ug.GroupId == groupId && ug.UserId == userId && ug.role == "BACKER")).length

/-- Environment for one run of the wallet-provider initiation: one field
per provider or storage call site. -/
structure PaypalEnv where
  configErr : Option Err
  txCreateErr : Option Err
  planCreateErr : Option Err
  activateErr : Option Err
  agreementRes : Except Err (List String)
  updateSubErr : Option Err
deriving DecidableEq, Repr

/-- Observable outcome of the wallet initiation entry point. -/
inductive PaypalOutcome where
  | rejected : Err → PaypalOutcome
  | failure : Err → PaypalOutcome
  | success : List String → PaypalOutcome
deriving DecidableEq, Repr

/-- Provisional transaction row built by the wallet initiation (source
lines 352 to 378): type payment, the request amount as given, the
resolved currency, approved, and deletedAt set so the row is invisible to
normal queries until restored; it references the subscription row created
alongside it. -/
def paypalTxRow (p : Payment) (group : GroupRow) (st : St) : TransactionRow :=
  { ttype := "payment", amount := some (p.amount.getD 0), amountInteger := none
    currency := some (jsOr p.currency group.currency), interval := p.interval
    platformFee := none, approved := true, deleted := true
    SubscriptionId := some st.subscriptions.length, UserId := none
    description := "Donation to " ++ group.name }

/-- Subscription row built by the wallet initiation, inactive until the
callback activates it. -/
def paypalSubRow (p : Payment) (group : GroupRow) : SubscriptionRow :=
  { amount := p.amount.getD 0, currency := jsOr p.currency group.currency
    interval := p.interval.getD "", isActive := false, activated := false
    hasAgreementData := false }

/-- paypalDonation, the wallet initiation entry point (source lines 318 to
457): validations (the path is subscription-only, so the interval must be
month or year; amount must be JS-truthy), then the graph getPaypalConfig,
createTransaction (persists the provisional transaction and subscription
pair through transactions._create, modelled from the spec since
src/app/controllers/transactions.js is not among the given sources),
createPlan, activatePlan, createBillingAgreement, updateSubscription. -/
def paypalDonation (p : Payment) (group : GroupRow) (env : PaypalEnv) (st : St) :
    St × PaypalOutcome :=
  if !intervalIsSub p.interval then
    (st, .rejected (Err.badRequest "Interval should be month or year."))
  else if amountFalsy p.amount then
    (st, .rejected (Err.badRequest "Payment Amount missing."))
  else
    match env.configErr with
    | some e => (st, .failure e)
    | none =>
      match env.txCreateErr with
      | some e => (st, .failure e)
      | none =>
        let st1 := { st with
          subscriptions := st.subscriptions ++ [paypalSubRow p group]
          transactions := st.transactions ++ [paypalTxRow p group st] }
        match env.planCreateErr with
        | some e => (st1, .failure e)
        | none =>
          let st2 := { st1 with paypalPlansCreated := st1.paypalPlansCreated + 1 }
          match env.activateErr with
          | some e => (st2, .failure e)
          | none =>
            match env.agreementRes with
            | .error e => (st2, .failure e)
            | .ok links =>
              match env.updateSubErr with
              | some e => (st2, .failure e)
              | none =>
                let st3 := { st2 with
                  subscriptions := updateAt (st.subscriptions.length)
                    (fun s => { s with hasAgreementData := true }) st2.subscriptions }
                (st3, .success links)

/-- Result of executing the billing agreement: the agreement id and the
payer email reported by the provider. -/
structure ExecResult where
  agreementId : String
  payerEmail : String
deriving DecidableEq, Repr

/-- Environment for one run of the wallet callback: one field per provider
or storage call site. The restore and setUser halves of the final step
are two separate storage calls and get separate outcomes. -/
structure CallbackEnv where
  configErr : Option Err
  execRes : Except Err ExecResult
  activateSubErr : Option Err
  userFindErr : Option Err
  userCreateErr : Option Err
  addUserErr : Option Err
  restoreErr : Option Err
  setUserErr : Option Err
deriving DecidableEq, Repr

/-- Observable outcome of the wallet callback entry point. -/
inductive CallbackOutcome where
  | rejected : Err → CallbackOutcome
  | failure : Err → CallbackOutcome
  | redirect : Int → CallbackOutcome
deriving DecidableEq, Repr

/-- Fresh user id for users._create, modelled from the spec (the users
controller is not among the given sources): one more than the largest id
in the table. -/
def nextUserId (us : List UserRow) : Int :=
  us.foldr (fun u acc => max u.id acc) 0 + 1

/-- getOrCreateUser (source lines 45 to 59): find the user by email; when
absent delegate to users._create (modelled from the spec as inserting a
fresh user with that email). -/
def getOrCreateUser (email : String) (env : CallbackEnv) (st : St) :
    St × Except Err UserRow :=
  match env.userFindErr with
  | some e => (st, .error e)
  | none =>
    match st.users.find? (fun u => u.email == email) with
    | some u => (st, .ok u)
    | none =>
      match env.userCreateErr with
      | some e => (st, .error e)
      | none =>
        let u : UserRow := { id := nextUserId st.users, email := email }
        ({ st with users := st.users ++ [u] }, .ok u)

/-- activateSubscription step (source lines 485 to 501), successful case:
merge the agreement into the subscription of the provisional transaction,
mark it active and stamp the activation time. -/
def activateSubscriptionStep (txId : Nat) (st : St) : St :=
  match st.transactions.get? txId with
  | none => st
  | some tx =>
    match tx.SubscriptionId with
    | none => st
    | some sid =>
      { st with subscriptions :=
          updateAt sid (fun s => { s with isActive := true, activated := true }) st.subscriptions }

/-- paypalCallback, the wallet callback entry point (source lines 459 to
546): reject when the execution token is missing, then run
getPaypalConfig, executeBillingAgreement, activateSubscription,
getOrCreateUser (keyed by the provider-returned payer email),
addUserToGroup, updateTransaction. updateTransaction first restores the
provisional transaction (clearing its deletedAt marker) and then, in a
second storage call, associates it with the resolved user; either call
can fail on its own. The returned number counts fully completed steps
(0 to 6), so a failure in step k leaves the count at k - 1 (both halves
of step 6 report 5). -/
def paypalCallback (txId : Nat) (token : Option String) (group : GroupRow)
    (env : CallbackEnv) (st : St) : St × CallbackOutcome × Nat :=
  if !optStrTruthy token then
    (st, .rejected (Err.badRequest "Token to execute agreement is missing"), 0)
  else
    match env.configErr with
    | some e => (st, .failure e, 0)
    | none =>
      match env.execRes with
      | .error e => (st, .failure e, 1)
      | .ok exec =>
        match env.activateSubErr with
        | some e => (st, .failure e, 2)
        | none =>
          let st1 := activateSubscriptionStep txId st
          match getOrCreateUser exec.payerEmail env st1 with
          | (st2, .error e) => (st2, .failure e, 3)
          | (st2, .ok user) =>
            match addUserToGroupStep group.id user.id env.addUserErr st2 with
            | (st3, some e) => (st3, .failure e, 4)
            | (st3, none) =>
              match env.restoreErr with
              | some e => (st3, .failure e, 5)
              | none =>
                let restored := updateAt txId (fun t => { t with deleted := false }) st3.transactions
                let st4 := { st3 with transactions := restored }
                match env.setUserErr with
                | some e => (st4, .failure e, 5)
                | none =>
                  let associated := updateAt txId (fun t => { t with UserId := some user.id }) st4.transactions
                  let st5 := { st4 with transactions := associated }
                  (st5, .redirect user.id, 6)

/-- Concrete collective used in witnesses and counterexamples. -/
def groupA : GroupRow := { id := 1, name := "testcollective", currency := "USD" }

/-- Concrete logged-in user for the card workflow. -/
def userA : UserRow := { id := 7, email := "payer@example.com" }

/-- Valid one-time card request: token and amount present, no currency
(so the collective currency applies), no interval. -/
def pOneTime : Payment :=
  { stripeToken := some "tok_valid", amount := some 10, currency := none
    interval := none, email := "payer@example.com" }

/-- Same request with a negative amount. -/
def pNegative : Payment := { pOneTime with amount := some (-5) }

/-- Valid wallet-provider initiation request. -/
def pWalletMonthly : Payment :=
  { stripeToken := none, amount := some 5, currency := some "EUR"
    interval := some "month", email := "payer@example.com" }

/-- Wallet request with a negative amount. -/
def pWalletNegative : Payment := { pWalletMonthly with amount := some (-5) }

/-- Card environment in which every provider and storage call succeeds and
the provider reports no application fee. -/
def cardEnvOk : CardEnv :=
  { accountErr := none, accessToken := some "sk_test_abc", nodeEnvProduction := false
    findPMErr := none, customerRes := .ok "cus_1", pmCreateErr := none
    planEnv := { retrieveRes := .error ("StripeInvalidRequest", "No such plan: p"), createErr := none }
    subRes := .ok { id := "sub_1", currency := none, planCurrency := some "USD", applicationFee := none }
    chargeErr := none, chargeId := "ch_1", chargeFee := none, donationCreateOk := true }

/-- Card environment in which the charge call is declined. -/
def cardEnvChargeFails : CardEnv :=
  { cardEnvOk with chargeErr := some (Err.provider "card declined") }

/-- Wallet initiation environment in which every call succeeds. -/
def paypalEnvOk : PaypalEnv :=
  { configErr := none, txCreateErr := none, planCreateErr := none
    activateErr := none, agreementRes := .ok ["approval-link-1"], updateSubErr := none }

/-- State after a successful wallet initiation: one provisional
transaction and one subscription, no user, no membership. -/
def stProvisional : St := (paypalDonation pWalletMonthly groupA paypalEnvOk stEmpty).1

/-- Wallet callback environment in which every call succeeds. -/
def cbEnvOk : CallbackEnv :=
  { configErr := none
    execRes := .ok { agreementId := "BA-1", payerEmail := "payer@example.com" }
    activateSubErr := none, userFindErr := none, userCreateErr := none
    addUserErr := none, restoreErr := none, setUserErr := none }

/-- Wallet callback environment in which only the user-association half of
the final updateTransaction step fails. -/
def cbEnvSetUserFails : CallbackEnv :=
  { cbEnvOk with setUserErr := some (Err.storage "failed to set user") }

/-- Wallet callback environment in which the agreement execution fails. -/
def cbEnvExecFails : CallbackEnv :=
  { cbEnvOk with execRes := .error (Err.provider "agreement execution failed") }

/-- Concrete plan specification for the plan-resolver witnesses. -/
def planUSD : Plan :=
  { id := "month-1000-USD", interval := "month", amount := 1000
    name := "month-1000-USD", currency := "USD" }

/-- Request with the invalid interval week. -/
def pWeek : Payment := { pOneTime with interval := some "week" }

/-- Card request with no charge token. -/
def pNoToken : Payment := { pOneTime with stripeToken := none }

/-- Card request with a zero amount. -/
def pZeroAmount : Payment := { pOneTime with amount := some 0 }

/-- Wallet request with a zero amount. -/
def pWalletZero : Payment := { pWalletMonthly with amount := some 0 }

/-- Card subscription request (monthly). -/
def pCardMonthly : Payment := { pOneTime with interval := some "month" }

/-- State after the first card request has run: it holds the PaymentMethod
row persisted by createPaymentMethod, which a second request with the
same token finds and reuses. -/
def stAfterFirstRequest : St := (post pOneTime userA groupA cardEnvOk stEmpty).1

/-- Claim C1. The claim says a valid one-time-charge request creates
exactly one Donation and exactly one Transaction. On the code, the
Donation is created with amount payment.amount * 100 and the collective
currency as claimed, but the createDonation task never invokes its
async.auto callback (source line 233 is a bare models.Donation.create),
so the dependent createTransaction task never starts: no Transaction is
ever created and the graph hangs. This theorem evaluates the workflow at
the failing input with every provider call succeeding. -/
theorem c1_one_time_creates_donation_but_no_transaction :
    (post pOneTime userA groupA cardEnvOk stEmpty).1.donations.map
      (fun d => (d.amount, d.currency, d.CollectiveId)) = [((1000 : Int), some "USD", (1 : Int))] ∧
    (post pOneTime userA groupA cardEnvOk stEmpty).1.transactions = [] ∧
    (post pOneTime userA groupA cardEnvOk stEmpty).2 = PostOutcome.hang := by
  refine ⟨by decide, by decide, by decide⟩

/-- Claim C2. The claim says the completion callback is invoked exactly
once: with the first failure, or with the full result set. On a run where
every step succeeds the callback is never invoked, because createDonation
never calls back and the graph stalls before its dependents; on a run
where an earlier step fails (here the charge) the callback does receive
that first failure. -/
theorem c2_completion_callback_never_invoked_on_success :
    (post pOneTime userA groupA cardEnvOk stEmpty).2 = PostOutcome.hang ∧
    (post pOneTime userA groupA cardEnvChargeFails stEmpty).2 =
      PostOutcome.failure (Err.provider "card declined") := by
  refine ⟨by decide, by decide⟩

/-- Claim C10. The claim says any failure inside the donor-acknowledgment
step is not propagated. The step body throws on every execution: its
first statement reads the identifier donation, which is bound nowhere in
scope, and the resulting ReferenceError is neither swallowed nor passed
to the step callback. -/
theorem c10_thank_you_step_throws :
    sendThankYouEmailStep cardWorkflowScope =
      StepResult.thrown "ReferenceError: donation is not defined" := by
  decide

/-- Claim C8 counterexample. The claim says a missing or non-positive
amount is rejected before the task graph starts and before any provider
call. A request with amount -5 passes the JS falsiness check in both
workflows: the card flow goes on to create a provider customer and a
charge, and the wallet flow persists a provisional transaction. -/
theorem c8_counterexample_negative_amount :
    (post pNegative userA groupA cardEnvOk stEmpty).2 = PostOutcome.hang ∧
    (post pNegative userA groupA cardEnvOk stEmpty).1.stripeChargeCalls = ["cus_1"] ∧
    (post pNegative userA groupA cardEnvOk stEmpty).1.stripeCustomersCreated = 1 ∧
    (paypalDonation pWalletNegative groupA paypalEnvOk stEmpty).2 =
      PaypalOutcome.success ["approval-link-1"] ∧
    (paypalDonation pWalletNegative groupA paypalEnvOk stEmpty).1.transactions.length = 1 := by
  refine ⟨by decide, by decide, by decide, by decide, by decide⟩

/-- Claim C9 counterexample. The claim says every persisted monetary
amount is an integer number of minor-currency units from validation
onward. The wallet initiation persists the transaction and subscription
amounts exactly as submitted in the request, in major units: for the
request amount 5 the persisted amount is 5, not the minor-unit value
5 * 100 that the card path would persist for the same request. -/
theorem c9_counterexample_wallet_major_units :
    (paypalDonation pWalletMonthly groupA paypalEnvOk stEmpty).1.transactions.map
      TransactionRow.amount = [some 5] ∧
    (paypalDonation pWalletMonthly groupA paypalEnvOk stEmpty).1.subscriptions.map
      SubscriptionRow.amount = [5] ∧
    (5 : Int) ≠ 5 * 100 := by
  refine ⟨by decide, by decide, by decide⟩

/-- Claim C4 counterexample. The claim says that when any callback step
fails, no transaction is revealed and no membership row is created. When
only the user-association half of the final updateTransaction step fails,
the step has already restored the transaction (it is revealed, with no
user attached) and the membership step has already run: the BACKER row
exists even though the workflow reports a failure. -/
theorem c4_counterexample_final_step_failure :
    (paypalCallback 0 (some "EC-2tok") groupA cbEnvSetUserFails stProvisional).2.1 =
      CallbackOutcome.failure (Err.storage "failed to set user") ∧
    (paypalCallback 0 (some "EC-2tok") groupA cbEnvSetUserFails stProvisional).1.transactions.map
      TransactionRow.deleted = [false] ∧
    (paypalCallback 0 (some "EC-2tok") groupA cbEnvSetUserFails stProvisional).1.userGroups =
      [{ GroupId := 1, UserId := 1, role := "BACKER" }] := by
  refine ⟨by decide, by decide, by decide⟩

theorem get?_updateAt (f : α → α) : ∀ (l : List α) (i : Nat),
    (updateAt i f l).get? i = (l.get? i).map f := by
  intro l
  induction l with
  | nil => intro i; simp [updateAt]
  | cons x xs ih =>
    intro i
    cases i with
    | zero => simp [updateAt]
    | succ n => simpa [updateAt] using ih n

theorem map_updateAt_eq (f : α → α) (g : α → β) (h : ∀ x, g (f x) = g x) :
    ∀ (i : Nat) (l : List α), (updateAt i f l).map g = l.map g := by
  intro i l
  induction l generalizing i with
  | nil => simp [updateAt]
  | cons x xs ih =>
    cases i with
    | zero => simp [updateAt, h]
    | succ n => simp [updateAt, ih n]

theorem find?_append_last {p : α → Bool} {l : List α} {x : α}
    (h : l.find? p = none) (hx : p x = true) : (l ++ [x]).find? p = some x := by
  rw [List.find?_append, h]
  simp [List.find?, hx]

theorem activateSubscriptionStep_preserves (txId : Nat) (st : St) :
    (activateSubscriptionStep txId st).transactions = st.transactions ∧
    (activateSubscriptionStep txId st).users = st.users ∧
    (activateSubscriptionStep txId st).userGroups = st.userGroups := by
  unfold activateSubscriptionStep
  split
  · exact ⟨rfl, rfl, rfl⟩
  · split
    · exact ⟨rfl, rfl, rfl⟩
    · exact ⟨rfl, rfl, rfl⟩

theorem getOrCreateUser_preserves (email : String) (env : CallbackEnv) (st : St) :
    (getOrCreateUser email env st).1.transactions = st.transactions ∧
    (getOrCreateUser email env st).1.userGroups = st.userGroups := by
  unfold getOrCreateUser
  split
  · exact ⟨rfl, rfl⟩
  · split
    · exact ⟨rfl, rfl⟩
    · split
      · exact ⟨rfl, rfl⟩
      · exact ⟨rfl, rfl⟩

theorem getOrCreateUser_ok (email : String) (env : CallbackEnv) (st : St) (u : UserRow)
    (h : (getOrCreateUser email env st).2 = .ok u) :
    u.email = email ∧ u ∈ (getOrCreateUser email env st).1.users := by
  unfold getOrCreateUser at h ⊢
  split at h
  · exact absurd h (by simp)
  · split at h
    · next hfind =>
      obtain rfl : _ = u := by simpa using h
      refine ⟨?_, List.mem_of_find?_eq_some hfind⟩
      have := List.find?_some hfind
      simpa using this
    · split at h
      · exact absurd h (by simp)
      · obtain rfl : _ = u := by simpa using h
        exact ⟨rfl, by simp⟩

theorem addUserToGroupStep_preserves (groupId userId : Int) (addErr : Option Err) (st : St) :
    (addUserToGroupStep groupId userId addErr st).1.transactions = st.transactions ∧
    (addUserToGroupStep groupId userId addErr st).1.users = st.users ∧
    (addUserToGroupStep groupId userId addErr st).1.subscriptions = st.subscriptions := by
  unfold addUserToGroupStep
  split
  · exact ⟨rfl, rfl, rfl⟩
  · split
    · exact ⟨rfl, rfl, rfl⟩
    · exact ⟨rfl, rfl, rfl⟩

theorem addUserToGroupStep_err (groupId userId : Int) (addErr : Option Err) (st : St) (e : Err)
    (h : (addUserToGroupStep groupId userId addErr st).2 = some e) :
    (addUserToGroupStep groupId userId addErr st).1 = st := by
  unfold addUserToGroupStep at h ⊢
  split at h
  · rfl
  · split at h
    · rfl
    · exact absurd h (by simp)

theorem paypalCallback_le4_preserves (txId : Nat) (token : Option String) (group : GroupRow)
    (cenv : CallbackEnv) (st1 st2 : St) (out : CallbackOutcome) (n : Nat)
    (h : paypalCallback txId token group cenv st1 = (st2, out, n)) (hn : n ≤ 4) :
    st2.transactions = st1.transactions ∧ st2.userGroups = st1.userGroups := by
  unfold paypalCallback at h
  cases htok : optStrTruthy token with
  | false =>
    simp only [htok, Bool.not_false, if_pos] at h
    obtain ⟨rfl, -, -⟩ := h
    exact ⟨rfl, rfl⟩
  | true =>
    rw [htok] at h
    simp only [Bool.not_true, Bool.false_eq_true, if_false] at h
    cases hconf : cenv.configErr with
    | some e =>
      simp only [hconf, Prod.mk.injEq] at h
      obtain ⟨rfl, -, -⟩ := h
      exact ⟨rfl, rfl⟩
    | none =>
      simp only [hconf] at h
      cases hexec : cenv.execRes with
      | error e =>
        simp only [hexec, Prod.mk.injEq] at h
        obtain ⟨rfl, -, -⟩ := h
        exact ⟨rfl, rfl⟩
      | ok exec =>
        simp only [hexec] at h
        cases hact : cenv.activateSubErr with
        | some e =>
          simp only [hact, Prod.mk.injEq] at h
          obtain ⟨rfl, -, -⟩ := h
          exact ⟨rfl, rfl⟩
        | none =>
          simp only [hact] at h
          have hA := activateSubscriptionStep_preserves txId st1
          rcases hu : getOrCreateUser exec.payerEmail cenv (activateSubscriptionStep txId st1)
            with ⟨stU, ru⟩
          have hG := getOrCreateUser_preserves exec.payerEmail cenv (activateSubscriptionStep txId st1)
          rw [hu] at hG h
          cases ru with
          | error e =>
            simp only [Prod.mk.injEq] at h
            obtain ⟨rfl, -, -⟩ := h
            exact ⟨hG.1.trans hA.1, hG.2.trans hA.2.2⟩
          | ok user =>
            dsimp only at h
            rcases hg : addUserToGroupStep group.id user.id cenv.addUserErr stU with ⟨stG, rg⟩
            rw [hg] at h
            cases rg with
            | some e =>
              have h2some : (addUserToGroupStep group.id user.id cenv.addUserErr stU).2 = some e := by
                rw [hg]
              have hid := addUserToGroupStep_err group.id user.id cenv.addUserErr stU e h2some
              rw [hg] at hid
              simp only [Prod.mk.injEq] at h
              obtain ⟨rfl, -, -⟩ := h
              have hid2 : stG = stU := hid
              subst hid2
              exact ⟨hG.1.trans hA.1, hG.2.trans hA.2.2⟩
            | none =>
              cases hres : cenv.restoreErr with
              | some e =>
                simp only [hres, Prod.mk.injEq] at h
                obtain ⟨-, -, rfl⟩ := h
                exact absurd hn (by omega)
              | none =>
                cases hset : cenv.setUserErr with
                | some e =>
                  simp only [hres, hset, Prod.mk.injEq] at h
                  obtain ⟨-, -, rfl⟩ := h
                  exact absurd hn (by omega)
                | none =>
                  simp only [hres, hset, Prod.mk.injEq] at h
                  obtain ⟨-, -, rfl⟩ := h
                  exact absurd hn (by omega)

theorem paypalCallback_success_reveals (txId : Nat) (token : Option String) (group : GroupRow)
    (cenv : CallbackEnv) (st1 st2 : St) (uid : Int) (n : Nat) (ex : ExecResult) (t : TransactionRow)
    (h : paypalCallback txId token group cenv st1 = (st2, CallbackOutcome.redirect uid, n))
    (hexec : cenv.execRes = .ok ex)
    (ht : st1.transactions.get? txId = some t) :
    ∃ u : UserRow, u ∈ st2.users ∧ u.email = ex.payerEmail ∧ u.id = uid ∧
      st2.transactions.get? txId = some { t with deleted := false, UserId := some uid } := by
  unfold paypalCallback at h
  cases htok : optStrTruthy token with
  | false => simp [htok] at h
  | true =>
    rw [htok] at h
    simp only [Bool.not_true, Bool.false_eq_true, if_false] at h
    cases hconf : cenv.configErr with
    | some e => simp [hconf] at h
    | none =>
      simp only [hconf, hexec] at h
      cases hact : cenv.activateSubErr with
      | some e => simp [hact] at h
      | none =>
        simp only [hact] at h
        have hA := activateSubscriptionStep_preserves txId st1
        rcases hu : getOrCreateUser ex.payerEmail cenv (activateSubscriptionStep txId st1)
          with ⟨stU, ru⟩
        have hG := getOrCreateUser_preserves ex.payerEmail cenv (activateSubscriptionStep txId st1)
        rw [hu] at hG h
        cases ru with
        | error e => simp at h
        | ok user =>
          dsimp only at h
          have hok : (getOrCreateUser ex.payerEmail cenv (activateSubscriptionStep txId st1)).2 =
              .ok user := by rw [hu]
          have huser := getOrCreateUser_ok ex.payerEmail cenv (activateSubscriptionStep txId st1)
            user hok
          rw [hu] at huser
          rcases hg : addUserToGroupStep group.id user.id cenv.addUserErr stU with ⟨stG, rg⟩
          have hP := addUserToGroupStep_preserves group.id user.id cenv.addUserErr stU
          rw [hg] at h hP
          cases rg with
          | some e => simp at h
          | none =>
            cases hres : cenv.restoreErr with
            | some e => simp [hres] at h
            | none =>
              cases hset : cenv.setUserErr with
              | some e => simp [hres, hset] at h
              | none =>
                simp only [hres, hset, Prod.mk.injEq, CallbackOutcome.redirect.injEq] at h
                obtain ⟨hst, huid, -⟩ := h
                subst hst
                subst huid
                refine ⟨user, ?_, huser.1, rfl, ?_⟩
                · exact hP.2.1 ▸ huser.2
                · have htrans : stG.transactions = st1.transactions :=
                    hP.1.trans (hG.1.trans hA.1)
                  show (updateAt txId _ (updateAt txId _ stG.transactions)).get? txId = _
                  rw [get?_updateAt, get?_updateAt, htrans, ht]
                  rfl

theorem paypalDonation_state (p : Payment) (group : GroupRow) (env : PaypalEnv) (st : St)
    (h1 : intervalIsSub p.interval = true) (h2 : amountFalsy p.amount = false)
    (h3 : env.configErr = none) (h4 : env.txCreateErr = none) :
    (paypalDonation p group env st).1.transactions = st.transactions ++ [paypalTxRow p group st] ∧
    (paypalDonation p group env st).1.subscriptions.map SubscriptionRow.amount =
      st.subscriptions.map SubscriptionRow.amount ++ [p.amount.getD 0] ∧
    (paypalDonation p group env st).1.userGroups = st.userGroups := by
  unfold paypalDonation
  simp only [h1, h2, Bool.not_true, Bool.false_eq_true, if_false, h3, h4]
  cases hplan : env.planCreateErr with
  | some e =>
    simp only [hplan]
    simp [paypalSubRow]
  | none =>
    simp only [hplan]
    cases hact : env.activateErr with
    | some e =>
      simp only [hact]
      simp [paypalSubRow]
    | none =>
      simp only [hact]
      cases hag : env.agreementRes with
      | error e =>
        simp only [hag]
        simp [paypalSubRow]
      | ok links =>
        simp only [hag]
        cases hupd : env.updateSubErr with
        | some e =>
          simp only [hupd]
          simp [paypalSubRow]
        | none =>
          simp only [hupd]
          refine ⟨?_, ?_, ?_⟩
          · simp
          · rw [map_updateAt_eq (fun s => { s with hasAgreementData := true })
              SubscriptionRow.amount (fun x => rfl)]
            simp [paypalSubRow]
          · simp

/-- Claim C3: a wallet-provider Transaction created during initiation
carries the provisional soft-delete marker, so it is invisible to normal
queries; every callback run that stops before the restore step (at most
four steps completed) leaves the transaction table untouched, keeping the
row invisible; and a callback run that reaches the redirect reveals the
row and associates it with the user resolved from the provider-returned
payer email. -/
theorem c3_provisional_until_restore (p : Payment) (group : GroupRow) (ienv : PaypalEnv)
    (st : St) (cenv : CallbackEnv) (token : Option String) (txId : Nat)
    (h1 : intervalIsSub p.interval = true) (h2 : amountFalsy p.amount = false)
    (h3 : ienv.configErr = none) (h4 : ienv.txCreateErr = none) :
    ((paypalDonation p group ienv st).1.transactions =
        st.transactions ++ [paypalTxRow p group st] ∧
      (paypalTxRow p group st).deleted = true) ∧
    (∀ st1 st2 out n, paypalCallback txId token group cenv st1 = (st2, out, n) →
      n ≤ 4 → st2.transactions = st1.transactions) ∧
    (∀ st1 st2 uid n ex t,
      paypalCallback txId token group cenv st1 = (st2, CallbackOutcome.redirect uid, n) →
      cenv.execRes = .ok ex → st1.transactions.get? txId = some t →
      ∃ u : UserRow, u ∈ st2.users ∧ u.email = ex.payerEmail ∧ u.id = uid ∧
        st2.transactions.get? txId = some { t with deleted := false, UserId := some uid }) := by
  refine ⟨⟨(paypalDonation_state p group ienv st h1 h2 h3 h4).1, rfl⟩, ?_, ?_⟩
  · intro st1 st2 out n h hn
    exact (paypalCallback_le4_preserves txId token group cenv st1 st2 out n h hn).1
  · intro st1 st2 uid n ex t h hex ht
    exact paypalCallback_success_reveals txId token group cenv st1 st2 uid n ex t h hex ht

/-- Witness for C3 at concrete inputs: the initiation on the empty state
appends the provisional row, and the all-success callback reveals it and
attaches the user created from the payer email. -/
theorem c3_provisional_until_restore_witness :
    ((paypalDonation pWalletMonthly groupA paypalEnvOk stEmpty).1.transactions =
        stEmpty.transactions ++ [paypalTxRow pWalletMonthly groupA stEmpty] ∧
      (paypalTxRow pWalletMonthly groupA stEmpty).deleted = true) ∧
    (∃ u : UserRow,
      u ∈ (paypalCallback 0 (some "EC-2tok") groupA cbEnvOk stProvisional).1.users ∧
      u.email = "payer@example.com" ∧ u.id = 1 ∧
      (paypalCallback 0 (some "EC-2tok") groupA cbEnvOk stProvisional).1.transactions.get? 0 =
        some { paypalTxRow pWalletMonthly groupA stEmpty with
                 deleted := false, UserId := some 1 }) := by
  have h := c3_provisional_until_restore pWalletMonthly groupA paypalEnvOk stEmpty cbEnvOk
    (some "EC-2tok") 0 (by decide) (by decide) rfl rfl
  refine ⟨h.1, ?_⟩
  exact h.2.2 stProvisional
    (paypalCallback 0 (some "EC-2tok") groupA cbEnvOk stProvisional).1 1 6
    { agreementId := "BA-1", payerEmail := "payer@example.com" }
    (paypalTxRow pWalletMonthly groupA stEmpty) rfl rfl rfl

/-- Claim C4 (amended): when a wallet-callback step at or before the
BACKER-membership step fails (at most four steps completed), the
transaction table and the membership table are exactly as they were: no
transaction is revealed and no membership row is created. A failure
inside the final restore-and-associate step is not covered: the
membership grant from the previous step persists, and when restore has
already succeeded the transaction is left revealed. -/
theorem c4_failure_before_restore_preserves (txId : Nat) (token : Option String)
    (group : GroupRow) (cenv : CallbackEnv) (st1 st2 : St) (e : Err) (n : Nat)
    (h : paypalCallback txId token group cenv st1 = (st2, CallbackOutcome.failure e, n))
    (hn : n ≤ 4) :
    st2.transactions = st1.transactions ∧ st2.userGroups = st1.userGroups :=
  paypalCallback_le4_preserves txId token group cenv st1 st2 (CallbackOutcome.failure e) n h hn

/-- Witness for the amended C4: a callback whose agreement execution fails
leaves the provisional transaction and the membership table unchanged. -/
theorem c4_failure_before_restore_witness :
    (paypalCallback 0 (some "EC-2tok") groupA cbEnvExecFails stProvisional).1.transactions =
      stProvisional.transactions ∧
    (paypalCallback 0 (some "EC-2tok") groupA cbEnvExecFails stProvisional).1.userGroups =
      stProvisional.userGroups :=
  c4_failure_before_restore_preserves 0 (some "EC-2tok") groupA cbEnvExecFails stProvisional
    (paypalCallback 0 (some "EC-2tok") groupA cbEnvExecFails stProvisional).1
    (Err.provider "agreement execution failed") 1 rfl (by decide)

/-- Claim C7: the provider-plan resolver returns an existing plan without
creating one when retrieval succeeds; creates the plan exactly when the
retrieval error is the provider invalid-request error whose message
reports no such plan; and passes any other retrieval error through
unchanged without creating anything, which the createCharge step turns
into a workflow-aborting failure. -/
theorem c7_get_or_create_plan_cases (plan : Plan) (env : PlanEnv) :
    (∀ pl, env.retrieveRes = .ok pl → getOrCreatePlan plan env = (.ok pl, false)) ∧
    (∀ t m, env.retrieveRes = .error (t, m) → t = "StripeInvalidRequest" →
      strContains m "No such plan" = true → env.createErr = none →
      getOrCreatePlan plan env = (.ok plan, true)) ∧
    (∀ t m, env.retrieveRes = .error (t, m) →
      (t == "StripeInvalidRequest" && strContains m "No such plan") = false →
      getOrCreatePlan plan env = (.error (t, m), false)) ∧
    (∀ t m (p : Payment) (g : GroupRow) (cenv : CardEnv) (pm : PaymentMethodRow) (st : St),
      cenv.planEnv = env → intervalIsSub p.interval = true →
      env.retrieveRes = .error (t, m) →
      (t == "StripeInvalidRequest" && strContains m "No such plan") = false →
      createChargeStep p g cenv pm st = (st, .error (Err.stripeErr t m))) := by
  refine ⟨?_, ?_, ?_, ?_⟩
  · intro pl h
    simp [getOrCreatePlan, h]
  · intro t m h ht hm hc
    subst ht
    simp [getOrCreatePlan, h, hm, hc]
  · intro t m h hcond
    simp [getOrCreatePlan, h, hcond]
  · intro t m p g cenv pm st hpe hsub hret hcond
    unfold createChargeStep getOrCreatePlan
    rw [hpe, hret]
    simp [hsub, hcond]

/-- Witness for C7 at concrete inputs: retrieval success returns the
existing plan, the no-such-plan error triggers creation, and an unrelated
error is propagated. -/
theorem c7_get_or_create_plan_witness :
    getOrCreatePlan planUSD { retrieveRes := .ok planUSD, createErr := none } =
      (.ok planUSD, false) ∧
    getOrCreatePlan planUSD
      { retrieveRes := .error ("StripeInvalidRequest", "No such plan: month-1000-USD")
        createErr := none } = (.ok planUSD, true) ∧
    getOrCreatePlan planUSD
      { retrieveRes := .error ("RateLimit", "too many requests"), createErr := none } =
      (.error ("RateLimit", "too many requests"), false) := by
  refine ⟨?_, ?_, ?_⟩
  · exact (c7_get_or_create_plan_cases planUSD _).1 planUSD rfl
  · exact (c7_get_or_create_plan_cases planUSD _).2.1 "StripeInvalidRequest"
      "No such plan: month-1000-USD" rfl rfl (by decide) rfl
  · exact (c7_get_or_create_plan_cases planUSD _).2.2.1 "RateLimit" "too many requests"
      rfl (by decide)

/-- Claim C6: the BACKER membership step, written identically in both
workflows, is idempotent: starting from a state with no BACKER row for
the pair, one invocation leaves exactly one row, and a second invocation
returns the state unchanged with no error, regardless of the storage
outcome it would have had (the existing row short-circuits the insert). -/
theorem c6_membership_idempotent (gid uid : Int) (e2 : Option Err) (st : St)
    (h : countBacker st gid uid = 0) :
    countBacker (addUserToGroupStep gid uid none st).1 gid uid = 1 ∧
    addUserToGroupStep gid uid e2 (addUserToGroupStep gid uid none st).1 =
      ((addUserToGroupStep gid uid none st).1, none) := by
  have hfilter : st.userGroups.filter (fun ug =>
      ug.GroupId == gid && ug.UserId == uid && ug.role == "BACKER") = [] :=
    List.length_eq_zero.mp h
  have hnone : st.userGroups.find? (fun ug =>
      ug.GroupId == gid && ug.UserId == uid && ug.role == "BACKER") = none := by
    rw [List.find?_eq_none]
    intro x hx
    simpa using List.filter_eq_nil_iff.mp hfilter x hx
  have hrow : (fun ug : UserGroupRow =>
      ug.GroupId == gid && ug.UserId == uid && ug.role == "BACKER")
      ⟨gid, uid, "BACKER"⟩ = true := by simp
  constructor
  · unfold addUserToGroupStep
    rw [hnone]
    unfold countBacker
    dsimp only
    rw [List.filter_append, hfilter]
    simp [hrow]
  · unfold addUserToGroupStep
    rw [hnone]
    dsimp only
    rw [find?_append_last hnone hrow]

/-- Witness for C6 at concrete inputs: on the empty state, one invocation
creates the single BACKER row and a second invocation (even one whose
insert would fail) changes nothing. -/
theorem c6_membership_idempotent_witness :
    countBacker (addUserToGroupStep 1 7 none stEmpty).1 1 7 = 1 ∧
    addUserToGroupStep 1 7 (some (Err.storage "insert failed"))
      (addUserToGroupStep 1 7 none stEmpty).1 =
      ((addUserToGroupStep 1 7 none stEmpty).1, none) :=
  c6_membership_idempotent 1 7 (some (Err.storage "insert failed")) stEmpty (by decide)

theorem createChargeStep_preserves (p : Payment) (g : GroupRow) (env : CardEnv)
    (pm : PaymentMethodRow) (st : St) :
    (createChargeStep p g env pm st).1.paymentMethods = st.paymentMethods ∧
    (createChargeStep p g env pm st).1.stripeCustomersCreated = st.stripeCustomersCreated := by
  unfold createChargeStep getOrCreatePlan
  cases hsub : intervalIsSub p.interval with
  | false =>
    cases hch : env.chargeErr with
    | some e => simp [hsub, hch]
    | none => simp [hsub, hch]
  | true =>
    simp only [hsub, if_true]
    cases hret : env.planEnv.retrieveRes with
    | error tm =>
      cases hcond : (tm.fst == "StripeInvalidRequest" && strContains tm.snd "No such plan") with
      | false => simp [hret, hcond]
      | true =>
        cases hce : env.planEnv.createErr with
        | some e => simp [hret, hcond, hce]
        | none =>
          cases hs : env.subRes with
          | error e => simp [hret, hcond, hce, hs]
          | ok sub => simp [hret, hcond, hce, hs]
    | ok pl =>
      simp only [hret]
      cases hs : env.subRes with
      | error e => simp [hs]
      | ok sub => simp [hs]

theorem createDonationStep_preserves (p : Payment) (u : UserRow) (g : GroupRow)
    (ch : Charge) (ok : Bool) (st : St) :
    (createDonationStep p u g ch ok st).paymentMethods = st.paymentMethods ∧
    (createDonationStep p u g ch ok st).stripeCustomersCreated = st.stripeCustomersCreated ∧
    (createDonationStep p u g ch ok st).stripeChargeCalls = st.stripeChargeCalls ∧
    (createDonationStep p u g ch ok st).transactions = st.transactions := by
  unfold createDonationStep
  split <;> simp

theorem postAfterPaymentMethod_preserves (p : Payment) (u : UserRow) (g : GroupRow)
    (env : CardEnv) (pm : PaymentMethodRow) (st : St) :
    (postAfterPaymentMethod p u g env pm st).1.paymentMethods = st.paymentMethods ∧
    (postAfterPaymentMethod p u g env pm st).1.stripeCustomersCreated = st.stripeCustomersCreated := by
  unfold postAfterPaymentMethod
  rcases hc : createChargeStep p g env pm st with ⟨st1, r⟩
  have hp := createChargeStep_preserves p g env pm st
  rw [hc] at hp
  cases r with
  | error e => exact ⟨hp.1, hp.2⟩
  | ok charge =>
    have hd := createDonationStep_preserves p u g charge env.donationCreateOk st1
    exact ⟨hd.1.trans hp.1, hd.2.1.trans hp.2⟩

/-- Claim C5: when a PaymentMethod row for the presented token already
exists, the card workflow creates no provider customer and no second
PaymentMethod row, and the one-time charge is made against the existing
row's provider customer reference. -/
theorem c5_same_token_reuses_payment_method (p : Payment) (user : UserRow) (group : GroupRow)
    (env : CardEnv) (st : St) (pm : PaymentMethodRow) (tok : String)
    (h1 : (optStrTruthy p.interval && !intervalIsSub p.interval) = false)
    (h2 : optStrTruthy p.stripeToken = true)
    (h3 : amountFalsy p.amount = false)
    (h4 : getGroupStripeAccount env group = .ok tok)
    (h5 : env.findPMErr = none)
    (h6 : st.paymentMethods.find? (fun q =>
        q.token == p.stripeToken.getD "" && q.service == "stripe") = some pm) :
    (post p user group env st).1.paymentMethods = st.paymentMethods ∧
    (post p user group env st).1.stripeCustomersCreated = st.stripeCustomersCreated ∧
    (intervalIsSub p.interval = false → env.chargeErr = none →
      (post p user group env st).1.stripeChargeCalls = st.stripeChargeCalls ++ [pm.serviceId]) := by
  have hpost : post p user group env st = postAfterPaymentMethod p user group env pm st := by
    unfold post
    simp only [h1, h2, h3, Bool.not_true, Bool.false_eq_true, if_false, h4, h5, h6]
  rw [hpost]
  have hp := postAfterPaymentMethod_preserves p user group env pm st
  refine ⟨hp.1, hp.2, ?_⟩
  intro hsub hch
  unfold postAfterPaymentMethod createChargeStep
  simp only [hsub, Bool.false_eq_true, if_false, hch]
  have hd := createDonationStep_preserves p user group
    { id := env.chargeId, currency := some (jsOr p.currency group.currency)
      planCurrency := none, applicationFee := env.chargeFee }
    env.donationCreateOk
    { st with stripeChargeCalls := st.stripeChargeCalls ++ [pm.serviceId] }
  exact hd.2.2.1

/-- Witness for C5 at concrete inputs: running the same one-time request a
second time, against the state the first run left behind, adds no
PaymentMethod row, creates no provider customer, and charges the existing
customer reference cus_1 again. -/
theorem c5_same_token_witness :
    (post pOneTime userA groupA cardEnvOk stAfterFirstRequest).1.paymentMethods =
      stAfterFirstRequest.paymentMethods ∧
    (post pOneTime userA groupA cardEnvOk stAfterFirstRequest).1.stripeCustomersCreated =
      stAfterFirstRequest.stripeCustomersCreated ∧
    (post pOneTime userA groupA cardEnvOk stAfterFirstRequest).1.stripeChargeCalls =
      stAfterFirstRequest.stripeChargeCalls ++ ["cus_1"] := by
  have h := c5_same_token_reuses_payment_method pOneTime userA groupA cardEnvOk
    stAfterFirstRequest { token := "tok_valid", serviceId := "cus_1", service := "stripe"
                          UserId := some 7 } "sk_test_abc"
    (by decide) (by decide) (by decide) (by decide) rfl (by decide)
  exact ⟨h.1, h.2.1, h.2.2 (by decide) rfl⟩

/-- Claim C8 (amended): a present interval outside month or year, a
missing charge token, and a missing or zero amount are rejected before
the task graph starts with the state unchanged (no provider call, no
record), and the bad-interval rejection carries the identical error in
both workflows; but a negative amount passes the JS falsiness check and
is not rejected by these validations. -/
theorem c8_validation_rejections (p : Payment) (user : UserRow) (group : GroupRow)
    (cenv : CardEnv) (penv : PaypalEnv) (st : St) :
    (optStrTruthy p.interval = true → intervalIsSub p.interval = false →
      post p user group cenv st =
        (st, .rejected (Err.badRequest "Interval should be month or year.")) ∧
      paypalDonation p group penv st =
        (st, .rejected (Err.badRequest "Interval should be month or year."))) ∧
    ((optStrTruthy p.interval && !intervalIsSub p.interval) = false →
      optStrTruthy p.stripeToken = false →
      post p user group cenv st = (st, .rejected (Err.badRequest "Stripe Token missing."))) ∧
    ((optStrTruthy p.interval && !intervalIsSub p.interval) = false →
      optStrTruthy p.stripeToken = true → amountFalsy p.amount = true →
      post p user group cenv st = (st, .rejected (Err.badRequest "Payment Amount missing."))) ∧
    (intervalIsSub p.interval = true → amountFalsy p.amount = true →
      paypalDonation p group penv st =
        (st, .rejected (Err.badRequest "Payment Amount missing."))) := by
  refine ⟨?_, ?_, ?_, ?_⟩
  · intro hi hsub
    constructor
    · unfold post
      simp [hi, hsub]
    · unfold paypalDonation
      simp [hsub]
  · intro hcond htok
    unfold post
    simp [hcond, htok]
  · intro hcond htok hamt
    unfold post
    simp [hcond, htok, hamt]
  · intro hsub hamt
    unfold paypalDonation
    simp [hsub, hamt]

/-- Witness for the amended C8 at concrete inputs: the interval week is
rejected identically by both entry points, a missing token and a zero
amount are rejected by the card flow, and a zero amount by the wallet
flow, each leaving the state untouched. -/
theorem c8_validation_rejections_witness :
    (post pWeek userA groupA cardEnvOk stEmpty =
        (stEmpty, .rejected (Err.badRequest "Interval should be month or year.")) ∧
      paypalDonation pWeek groupA paypalEnvOk stEmpty =
        (stEmpty, .rejected (Err.badRequest "Interval should be month or year."))) ∧
    post pNoToken userA groupA cardEnvOk stEmpty =
      (stEmpty, .rejected (Err.badRequest "Stripe Token missing.")) ∧
    post pZeroAmount userA groupA cardEnvOk stEmpty =
      (stEmpty, .rejected (Err.badRequest "Payment Amount missing.")) ∧
    paypalDonation pWalletZero groupA paypalEnvOk stEmpty =
      (stEmpty, .rejected (Err.badRequest "Payment Amount missing.")) := by
  have h1 := c8_validation_rejections pWeek userA groupA cardEnvOk paypalEnvOk stEmpty
  have h2 := c8_validation_rejections pNoToken userA groupA cardEnvOk paypalEnvOk stEmpty
  have h3 := c8_validation_rejections pZeroAmount userA groupA cardEnvOk paypalEnvOk stEmpty
  have h4 := c8_validation_rejections pWalletZero userA groupA cardEnvOk paypalEnvOk stEmpty
  exact ⟨h1.1 (by decide) (by decide), h2.2.1 (by decide) (by decide),
         h3.2.2.1 (by decide) (by decide) (by decide), h4.2.2.2 (by decide) (by decide)⟩

/-- Claim C9 (amended): the card path persists the Donation amount in
integer minor units (the request amount times 100) and every plan
specification sent to the card provider carries the minor-unit amount;
but the subscription descriptor embedded in a card-path Donation and the
wallet-path Transaction and Subscription rows persist the amount in major
units exactly as submitted. The card-path Transaction row, which would
carry minor units, is never persisted at all because createDonation never
invokes its callback. -/
theorem c9_amount_units (p : Payment) (user : UserRow) (group : GroupRow)
    (cenv : CardEnv) (penv : PaypalEnv) (st : St) (charge : Charge) (pm : PaymentMethodRow) :
    (createDonationStep p user group charge true st).donations.map DonationRow.amount =
      st.donations.map DonationRow.amount ++ [p.amount.getD 0 * 100] ∧
    (intervalIsSub p.interval = true →
      (createDonationStep p user group charge true st).donations.map DonationRow.subAmount =
        st.donations.map DonationRow.subAmount ++ [some (p.amount.getD 0)]) ∧
    (∀ q ∈ (createChargeStep p group cenv pm st).1.stripePlanSpecs,
      q ∈ st.stripePlanSpecs ∨ q.amount = p.amount.getD 0 * 100) ∧
    (intervalIsSub p.interval = true → amountFalsy p.amount = false →
      penv.configErr = none → penv.txCreateErr = none →
      (paypalDonation p group penv st).1.transactions.map TransactionRow.amount =
        st.transactions.map TransactionRow.amount ++ [some (p.amount.getD 0)] ∧
      (paypalDonation p group penv st).1.subscriptions.map SubscriptionRow.amount =
        st.subscriptions.map SubscriptionRow.amount ++ [p.amount.getD 0]) := by
  refine ⟨?_, ?_, ?_, ?_⟩
  · unfold createDonationStep
    simp
  · intro hsub
    unfold createDonationStep
    simp [hsub]
  · intro q
    unfold createChargeStep getOrCreatePlan
    cases hsub : intervalIsSub p.interval with
    | false =>
      cases hch : cenv.chargeErr with
      | some e =>
        simp only [hsub, Bool.false_eq_true, if_false, hch]
        exact fun hq => Or.inl hq
      | none =>
        simp only [hsub, Bool.false_eq_true, if_false, hch]
        exact fun hq => Or.inl hq
    | true =>
      simp only [hsub, if_true]
      cases hret : cenv.planEnv.retrieveRes with
      | error tm =>
        cases hcond : (tm.fst == "StripeInvalidRequest" && strContains tm.snd "No such plan") with
        | false =>
          simp only [hret, hcond, Bool.false_eq_true, if_false]
          exact fun hq => Or.inl hq
        | true =>
          cases hce : cenv.planEnv.createErr with
          | some e =>
            simp only [hret, hcond, if_true, hce]
            exact fun hq => Or.inl hq
          | none =>
            cases hs : cenv.subRes with
            | error e =>
              simp only [hret, hcond, hce, hs]
              intro hq
              rcases List.mem_append.mp hq with hmem | hmem
              · exact Or.inl hmem
              · right
                rw [List.mem_singleton.mp hmem]
            | ok sub =>
              simp only [hret, hcond, hce, hs]
              intro hq
              rcases List.mem_append.mp hq with hmem | hmem
              · exact Or.inl hmem
              · right
                rw [List.mem_singleton.mp hmem]
      | ok pl =>
        cases hs : cenv.subRes with
        | error e =>
          simp only [hret, hs]
          exact fun hq => Or.inl hq
        | ok sub =>
          simp only [hret, hs]
          exact fun hq => Or.inl hq
  · intro hsub hamt hconf htx
    have h := paypalDonation_state p group penv st hsub hamt hconf htx
    constructor
    · rw [h.1]
      simp [paypalTxRow]
    · exact h.2.1

/-- Witness for the amended C9 at concrete inputs: for a monthly request
of 10, the card path persists a Donation amount of 1000 minor units with
a subscription descriptor amount of 10 major units, the plan sent to the
provider carries 1000, and the wallet path persists transaction and
subscription amounts of 10. -/
theorem c9_amount_units_witness :
    (createDonationStep pCardMonthly userA groupA
        { id := "sub_1", currency := none, planCurrency := some "USD", applicationFee := none }
        true stEmpty).donations.map DonationRow.amount =
      stEmpty.donations.map DonationRow.amount ++ [1000] ∧
    (createDonationStep pCardMonthly userA groupA
        { id := "sub_1", currency := none, planCurrency := some "USD", applicationFee := none }
        true stEmpty).donations.map DonationRow.subAmount =
      stEmpty.donations.map DonationRow.subAmount ++ [some 10] ∧
    (planUSD ∈ stEmpty.stripePlanSpecs ∨ planUSD.amount = 1000) ∧
    (paypalDonation pCardMonthly groupA paypalEnvOk stEmpty).1.transactions.map
        TransactionRow.amount =
      stEmpty.transactions.map TransactionRow.amount ++ [some 10] ∧
    (paypalDonation pCardMonthly groupA paypalEnvOk stEmpty).1.subscriptions.map
        SubscriptionRow.amount =
      stEmpty.subscriptions.map SubscriptionRow.amount ++ [10] := by
  have h := c9_amount_units pCardMonthly userA groupA cardEnvOk paypalEnvOk stEmpty
    { id := "sub_1", currency := none, planCurrency := some "USD", applicationFee := none }
    { token := "tok_valid", serviceId := "cus_1", service := "stripe", UserId := some 7 }
  have h4 := h.2.2.2 (by decide) (by decide) rfl rfl
  exact ⟨h.1, h.2.1 (by decide), h.2.2.1 planUSD (by decide), h4.1, h4.2⟩
